import Mathlib

/-!
Shallow embedding of the Kotlin/Native GC scheduler
(`runtime/src/gc/common/cpp/GCScheduler.hpp` / `GCScheduler.cpp`).

The subsystem decides when to request a garbage collection:
per-thread counters (`ThreadData`) accumulate weighted safepoints and
allocated bytes against snapshotted thresholds; on a threshold crossing they
report to the shared decision state (`GCData`), which triggers the bound
`scheduleGC` callback when the reported bytes exceed the live byte threshold
or the cooldown since the last collection has elapsed.

Modelling conventions:
- `size_t` and `uint64_t` are 64-bit here; arithmetic that can overflow is
  taken modulo `wordSize = 2 ^ 64` exactly where the C++ wraps.
- `std::function` values are modelled by their observable effect: a bound /
  unbound flag for `scheduleGC_`, and the argument pair that would be passed
  to `onSafePoint_` is returned as an `Option (Nat × Nat)` report.
- The compile-time constant `compiler::gcAggressive()` (from
  `CompilerConstants.hpp`, not part of this tree) is threaded as an explicit
  `Bool` parameter.
- `RuntimeAssert` (from `KAssert.h`, not part of this tree) is modelled from
  the spec: a fatal assertion that terminates the process, embedded as
  `Except.error` with the assertion message; operations that can hit an
  assertion return `Except String α`.
- The monotonic time source callback is modelled by passing the value it
  would return (`nowNs`) to each operation that samples it.
-/

namespace GCSchedulerModel

/-- Modulus of `size_t` / `uint64_t` on the 64-bit targets this runtime
builds for. -/
def wordSize : Nat := 2 ^ 64

/-- `kotlin::gc::GCSchedulerConfig`: four tunable fields
(GCScheduler.hpp lines 20-27). The atomics are modelled as plain fields;
each operation below takes the config value it observes. -/
structure GCSchedulerConfig where
  threshold : Nat
  allocationThresholdBytes : Nat
  cooldownThresholdNs : Nat
  autoTune : Bool
deriving DecidableEq

/-- `GCSchedulerConfig::GCSchedulerConfig()` (GCScheduler.cpp lines 27-34):
the in-class initializers give the defaults; the constructor body overrides
them in the aggressive profile. -/
def GCSchedulerConfig.make (gcAggressive : Bool) : GCSchedulerConfig :=
  if gcAggressive then
    { threshold := 1000
      allocationThresholdBytes := 10000
      cooldownThresholdNs := 0
      autoTune := false }
  else
    { threshold := 100000
      allocationThresholdBytes := 10 * 1024 * 1024
      cooldownThresholdNs := 200 * 1000 * 1000
      autoTune := false }

/-- `GCScheduler::ThreadData` mutable fields (GCScheduler.hpp lines 76-79).
The references `config_` and `onSafePoint_` fixed at construction are
modelled by passing the config to each operation and returning the report
that would be delivered through the callback. -/
structure ThreadData where
  allocatedBytes : Nat
  allocatedBytesThreshold : Nat
  safePointsCounter : Nat
  safePointsCounterThreshold : Nat
deriving DecidableEq

/-- `ThreadData::ClearCountersAndUpdateThresholds` (GCScheduler.cpp lines
19-25): zero both counters and re-read both thresholds from the live
config. All four fields are overwritten, so the result ignores the prior
state. -/
def ThreadData.clearCountersAndUpdateThresholds (config : GCSchedulerConfig)
    (_td : ThreadData) : ThreadData :=
  { allocatedBytes := 0
    safePointsCounter := 0
    allocatedBytesThreshold := config.allocationThresholdBytes
    safePointsCounterThreshold := config.threshold }

/-- `ThreadData::ThreadData` (GCScheduler.hpp lines 40-43): fields start at
zero, then `ClearCountersAndUpdateThresholds()` runs in the constructor
body. -/
def ThreadData.init (config : GCSchedulerConfig) : ThreadData :=
  ThreadData.clearCountersAndUpdateThresholds config
    { allocatedBytes := 0
      allocatedBytesThreshold := 0
      safePointsCounter := 0
      safePointsCounterThreshold := 0 }

/-- `ThreadData::OnSafePointSlowPath` (GCScheduler.cpp lines 14-17):
report the current `(allocatedBytes_, safePointsCounter_)` pair through
`onSafePoint_`, then clear counters and refresh thresholds. -/
def ThreadData.onSafePointSlowPath (config : GCSchedulerConfig)
    (td : ThreadData) : ThreadData × (Nat × Nat) :=
  (ThreadData.clearCountersAndUpdateThresholds config td,
    (td.allocatedBytes, td.safePointsCounter))

/-- `ThreadData::OnSafePointRegular` (GCScheduler.hpp lines 46-55): only in
the aggressive profile, add `weight` to the safepoint counter (`size_t`
wrap-around) and run the slow path once the counter is no longer below the
snapshotted threshold. The second component is the report delivered to
`onSafePoint_`, `none` when the fast path returns. -/
def ThreadData.onSafePointRegular (gcAggressive : Bool)
    (config : GCSchedulerConfig) (td : ThreadData) (weight : Nat) :
    ThreadData × Option (Nat × Nat) :=
  if gcAggressive then
    let td1 : ThreadData :=
      { td with safePointsCounter := (td.safePointsCounter + weight) % wordSize }
    if td1.safePointsCounter < td1.safePointsCounterThreshold then
      (td1, none)
    else
      let r := ThreadData.onSafePointSlowPath config td1
      (r.1, some r.2)
  else
    (td, none)

/-- `ThreadData::OnSafePointAllocation` (GCScheduler.hpp lines 59-65):
unconditionally add `size` to the allocated-bytes counter (`size_t`
wrap-around) and run the slow path once the counter is no longer below the
snapshotted threshold. -/
def ThreadData.onSafePointAllocation (config : GCSchedulerConfig)
    (td : ThreadData) (size : Nat) : ThreadData × Option (Nat × Nat) :=
  let td1 : ThreadData :=
    { td with allocatedBytes := (td.allocatedBytes + size) % wordSize }
  if td1.allocatedBytes < td1.allocatedBytesThreshold then
    (td1, none)
  else
    let r := ThreadData.onSafePointSlowPath config td1
    (r.1, some r.2)

/-- `ThreadData::OnStoppedForGC` (GCScheduler.hpp line 67): delegate to
`ClearCountersAndUpdateThresholds`. -/
def ThreadData.onStoppedForGC (config : GCSchedulerConfig)
    (td : ThreadData) : ThreadData :=
  ThreadData.clearCountersAndUpdateThresholds config td

/-- A sequence of `OnSafePointAllocation` calls on one thread; the second
component records, per call, whether that call reported to the decision
state. -/
def runAllocations (config : GCSchedulerConfig) (td : ThreadData) :
    List Nat → ThreadData × List Bool
  | [] => (td, [])
  | size :: rest =>
    let r := ThreadData.onSafePointAllocation config td size
    let rec' := runAllocations config r.1 rest
    (rec'.1, r.2.isSome :: rec'.2)

/-- A sequence of `OnSafePointRegular` calls on one thread; the second
component records, per call, whether that call reported to the decision
state. -/
def runRegularSafePoints (gcAggressive : Bool) (config : GCSchedulerConfig)
    (td : ThreadData) : List Nat → ThreadData × List Bool
  | [] => (td, [])
  | weight :: rest =>
    let r := ThreadData.onSafePointRegular gcAggressive config td weight
    let rec' := runRegularSafePoints gcAggressive config r.1 rest
    (rec'.1, r.2.isSome :: rec'.2)

/-- `GCScheduler::GCData` state (GCScheduler.hpp lines 98-103):
`timeOfLastGcNs_` plus the observable state of the `scheduleGC_`
`std::function` (bound to a non-empty callback or not). The `config_`
reference and the time-source callback are modelled as per-operation
arguments. -/
structure GCData where
  timeOfLastGcNs : Nat
  scheduleGCBound : Bool
deriving DecidableEq

/-- `GCData::GCData` (GCScheduler.cpp lines 36-37): `timeOfLastGcNs_` is
initialized from the time source; `scheduleGC_` starts default-constructed
(empty). `nowNs` is the value the time-source callback returns at
construction. -/
def GCData.init (nowNs : Nat) : GCData :=
  { timeOfLastGcNs := nowNs % wordSize
    scheduleGCBound := false }

/-- `GCData::SetScheduleGC` (GCScheduler.hpp lines 94-96): unconditionally
`scheduleGC_ = std::move(scheduleGC)`. No assertion, no once-only check:
storing an empty callback leaves `scheduleGC_` unbound, and a second call
overwrites the first. `newCallbackNonEmpty` is whether the passed
`std::function` holds a callable. -/
def GCData.setScheduleGC (gcd : GCData) (newCallbackNonEmpty : Bool) : GCData :=
  { gcd with scheduleGCBound := newCallbackNonEmpty }

/-- `GCData::OnSafePoint` (GCScheduler.cpp lines 39-44): trigger when the
reported bytes exceed the live byte threshold, or when `uint64_t`
subtraction `now - timeOfLastGcNs_` reaches the live cooldown. On trigger,
`RuntimeAssert(scheduleGC_, "scheduleGC_ cannot be empty")` then one call
to `scheduleGC_()`. Returns the number of `scheduleGC_` invocations, or the
fatal assertion message. `safePointsCounter` is accepted and unused, as in
the source. -/
def GCData.onSafePoint (config : GCSchedulerConfig) (gcd : GCData)
    (nowNs : Nat) (allocatedBytes _safePointsCounter : Nat) :
    Except String Nat :=
  if allocatedBytes > config.allocationThresholdBytes ∨
      (nowNs % wordSize + wordSize - gcd.timeOfLastGcNs) % wordSize ≥
        config.cooldownThresholdNs then
    if gcd.scheduleGCBound then
      Except.ok 1
    else
      Except.error "scheduleGC_ cannot be empty"
  else
    Except.ok 0

/-- `GCData::OnPerformFullGC` (GCScheduler.cpp lines 46-48): reset
`timeOfLastGcNs_` to the current time. -/
def GCData.onPerformFullGC (gcd : GCData) (nowNs : Nat) : GCData :=
  { gcd with timeOfLastGcNs := nowNs % wordSize }

/-- `GCScheduler` state (GCScheduler.hpp lines 115-118): owns the config,
the decision state and its own copy of the `scheduleGC_` callback. -/
structure GCScheduler where
  config : GCSchedulerConfig
  gcData : GCData
  scheduleGCBound : Bool
deriving DecidableEq

/-- `GCScheduler::GCScheduler` (GCScheduler.cpp line 50): default config
(profile-dependent), `GCData` built over it with the `konan::getTimeNanos`
time source, `scheduleGC_` empty. -/
def GCScheduler.init (gcAggressive : Bool) (nowNs : Nat) : GCScheduler :=
  { config := GCSchedulerConfig.make gcAggressive
    gcData := GCData.init nowNs
    scheduleGCBound := false }

/-- `GCScheduler::NewThreadData` (GCScheduler.cpp lines 52-56): a fresh
`ThreadData` over the scheduler's config, whose report closure forwards
into `GCData::OnSafePoint`. -/
def GCScheduler.newThreadData (s : GCScheduler) : ThreadData :=
  ThreadData.init s.config

/-- `GCScheduler::SetScheduleGC` (GCScheduler.cpp lines 58-63):
`RuntimeAssert` that the new callback is non-empty, `RuntimeAssert` that no
callback was set before, then store it and forward it (now known non-empty)
to `gcData_.SetScheduleGC`. -/
def GCScheduler.setScheduleGC (s : GCScheduler)
    (newCallbackNonEmpty : Bool) : Except String GCScheduler :=
  if ¬ newCallbackNonEmpty then
    Except.error "scheduleGC cannot be empty"
  else if s.scheduleGCBound then
    Except.error "scheduleGC must not have been set"
  else
    Except.ok
      { s with
        scheduleGCBound := true
        gcData := GCData.setScheduleGC s.gcData true }

/-! ### Helper lemmas -/

/-- Under a monotonic time source that has not wrapped `uint64_t`, the
`uint64_t` subtraction `now - timeOfLastGcNs_` embedded in
`GCData.onSafePoint` is the true elapsed time. -/
lemma elapsed_eq (last now : Nat) (h1 : last ≤ now) (h2 : now < wordSize) :
    (now % wordSize + wordSize - last) % wordSize = now - last := by
  rw [Nat.mod_eq_of_lt h2]
  have he : now + wordSize - last = wordSize + (now - last) := by omega
  rw [he, Nat.add_mod_left]
  exact Nat.mod_eq_of_lt (by omega)

/-- Evaluation of `GCData.onSafePoint` with a bound callback: one trigger
exactly when a condition holds, otherwise none. -/
lemma onSafePoint_bound_eq (config : GCSchedulerConfig) (gcd : GCData)
    (nowNs allocatedBytes safePointsCounter : Nat)
    (hb : gcd.scheduleGCBound = true)
    (h1 : gcd.timeOfLastGcNs ≤ nowNs) (h2 : nowNs < wordSize) :
    GCData.onSafePoint config gcd nowNs allocatedBytes safePointsCounter =
      Except.ok
        (if config.allocationThresholdBytes < allocatedBytes ∨
            config.cooldownThresholdNs ≤ nowNs - gcd.timeOfLastGcNs then 1 else 0) := by
  unfold GCData.onSafePoint
  simp only [elapsed_eq gcd.timeOfLastGcNs nowNs h1 h2, hb, if_true, ge_iff_le, gt_iff_lt]
  by_cases hc : config.allocationThresholdBytes < allocatedBytes ∨
      config.cooldownThresholdNs ≤ nowNs - gcd.timeOfLastGcNs
  · rw [if_pos hc, if_pos hc]
  · rw [if_neg hc, if_neg hc]

/-- Evaluation of `GCData.onSafePoint` with an unbound callback: the fatal
assertion fires exactly when a trigger condition holds. -/
lemma onSafePoint_unbound_eq (config : GCSchedulerConfig) (gcd : GCData)
    (nowNs allocatedBytes safePointsCounter : Nat)
    (hb : gcd.scheduleGCBound = false)
    (h1 : gcd.timeOfLastGcNs ≤ nowNs) (h2 : nowNs < wordSize) :
    GCData.onSafePoint config gcd nowNs allocatedBytes safePointsCounter =
      (if config.allocationThresholdBytes < allocatedBytes ∨
          config.cooldownThresholdNs ≤ nowNs - gcd.timeOfLastGcNs then
        Except.error "scheduleGC_ cannot be empty"
      else Except.ok 0) := by
  unfold GCData.onSafePoint
  simp only [elapsed_eq gcd.timeOfLastGcNs nowNs h1 h2, hb, ge_iff_le, gt_iff_lt,
    Bool.false_eq_true, if_false]

/-! ### Claim theorems -/

/-- C1: with the trigger callback bound and a monotonic, non-wrapping time
source, `GCData::OnSafePoint` invokes `scheduleGC_` iff the reported
allocated bytes strictly exceed the live allocation-byte threshold or the
elapsed time since the last collection is at least the live cooldown, and
it issues at most one invocation per call. -/
theorem gcData_onSafePoint_triggers_iff (config : GCSchedulerConfig)
    (gcd : GCData) (nowNs allocatedBytes safePointsCounter : Nat)
    (hbound : gcd.scheduleGCBound = true)
    (hmono : gcd.timeOfLastGcNs ≤ nowNs) (hnow : nowNs < wordSize) :
    (GCData.onSafePoint config gcd nowNs allocatedBytes safePointsCounter =
        Except.ok 1 ↔
      (config.allocationThresholdBytes < allocatedBytes ∨
        config.cooldownThresholdNs ≤ nowNs - gcd.timeOfLastGcNs)) ∧
    ∀ n, GCData.onSafePoint config gcd nowNs allocatedBytes safePointsCounter =
        Except.ok n → n ≤ 1 := by
  have h := onSafePoint_bound_eq config gcd nowNs allocatedBytes safePointsCounter
    hbound hmono hnow
  constructor
  · rw [h]
    by_cases hc : config.allocationThresholdBytes < allocatedBytes ∨
        config.cooldownThresholdNs ≤ nowNs - gcd.timeOfLastGcNs
    · simp [hc]
    · simp [hc]
  · intro n hn
    rw [h] at hn
    split at hn <;> · injection hn with hv; omega

/-- C1 witness: default config (byte threshold 10 MiB), last collection at
time 0, evaluation at time 5 with 11 MiB reported: exactly one trigger. -/
theorem gcData_onSafePoint_triggers_iff_witness :
    GCData.onSafePoint (GCSchedulerConfig.make false) ⟨0, true⟩ 5 11534336 7 =
      Except.ok 1 := by
  have h := (gcData_onSafePoint_triggers_iff (GCSchedulerConfig.make false)
    ⟨0, true⟩ 5 11534336 7 rfl (Nat.zero_le 5) (by norm_num [wordSize])).1
  exact h.mpr (Or.inl (by norm_num [GCSchedulerConfig.make]))

/-- C7: with the trigger callback unbound, `GCData::OnSafePoint` aborts via
the fatal assertion `scheduleGC_ cannot be empty` exactly when a trigger
condition is met; when no condition is met, the call returns without
failure and without any invocation. -/
theorem gcData_onSafePoint_unbound_fatal (config : GCSchedulerConfig)
    (gcd : GCData) (nowNs allocatedBytes safePointsCounter : Nat)
    (hbound : gcd.scheduleGCBound = false)
    (hmono : gcd.timeOfLastGcNs ≤ nowNs) (hnow : nowNs < wordSize) :
    ((config.allocationThresholdBytes < allocatedBytes ∨
        config.cooldownThresholdNs ≤ nowNs - gcd.timeOfLastGcNs) →
      GCData.onSafePoint config gcd nowNs allocatedBytes safePointsCounter =
        Except.error "scheduleGC_ cannot be empty") ∧
    (¬ (config.allocationThresholdBytes < allocatedBytes ∨
        config.cooldownThresholdNs ≤ nowNs - gcd.timeOfLastGcNs) →
      GCData.onSafePoint config gcd nowNs allocatedBytes safePointsCounter =
        Except.ok 0) := by
  have h := onSafePoint_unbound_eq config gcd nowNs allocatedBytes safePointsCounter
    hbound hmono hnow
  constructor
  · intro hc
    rw [h, if_pos hc]
  · intro hc
    rw [h, if_neg hc]

/-- C7 witness: unbound callback, 11 MiB reported against the default
10 MiB live threshold: the call is the fatal assertion. -/
theorem gcData_onSafePoint_unbound_fatal_witness :
    GCData.onSafePoint (GCSchedulerConfig.make false) ⟨0, false⟩ 5 11534336 7 =
      Except.error "scheduleGC_ cannot be empty" := by
  have h := (gcData_onSafePoint_unbound_fatal (GCSchedulerConfig.make false)
    ⟨0, false⟩ 5 11534336 7 rfl (Nat.zero_le 5) (by norm_num [wordSize])).1
  exact h (Or.inl (by norm_num [GCSchedulerConfig.make]))

/-- Scenario C configuration: byte threshold effectively unreachable,
cooldown 200 ms. -/
def cfgScenarioC : GCSchedulerConfig :=
  { threshold := 100000
    allocationThresholdBytes := 2 ^ 63
    cooldownThresholdNs := 200 * 1000 * 1000
    autoTune := false }

/-- C6: after `GCData::OnPerformFullGC` at time `t`, an `OnSafePoint` whose
reported bytes do not exceed the live byte threshold triggers iff it
happens at a time `tp` with `tp - t` at least the live cooldown; and in
Scenario C (unreachable byte threshold, 200 ms cooldown, decision state
built at time 0 and then bound), evaluating with zero bytes at time 0 does
not trigger while evaluating 201 ms later does. -/
theorem gcData_onPerformFullGC_cooldown_reset :
    (∀ (config : GCSchedulerConfig) (gcd : GCData)
        (t tp allocatedBytes safePointsCounter : Nat),
      gcd.scheduleGCBound = true → t ≤ tp → tp < wordSize →
      allocatedBytes ≤ config.allocationThresholdBytes →
      GCData.onSafePoint config (GCData.onPerformFullGC gcd t) tp
          allocatedBytes safePointsCounter =
        Except.ok (if config.cooldownThresholdNs ≤ tp - t then 1 else 0)) ∧
    (GCData.onSafePoint cfgScenarioC
        (GCData.setScheduleGC (GCData.init 0) true) 0 0 0 = Except.ok 0 ∧
      GCData.onSafePoint cfgScenarioC
        (GCData.setScheduleGC (GCData.init 0) true) 201000000 0 0 =
        Except.ok 1) := by
  constructor
  · intro config gcd t tp allocatedBytes safePointsCounter hb hle hw hbytes
    have ht : t < wordSize := lt_of_le_of_lt hle hw
    have hfield : (GCData.onPerformFullGC gcd t).timeOfLastGcNs = t := by
      simp [GCData.onPerformFullGC, Nat.mod_eq_of_lt ht]
    have h := onSafePoint_bound_eq config (GCData.onPerformFullGC gcd t) tp
      allocatedBytes safePointsCounter hb (by rw [hfield]; exact hle) hw
    rw [h, hfield]
    have hnb : ¬ config.allocationThresholdBytes < allocatedBytes :=
      not_lt.mpr hbytes
    by_cases hc : config.cooldownThresholdNs ≤ tp - t
    · rw [if_pos (Or.inr hc), if_pos hc]
    · rw [if_neg ?_, if_neg hc]
      rintro (h1 | h2)
      · exact hnb h1
      · exact hc h2
  · exact ⟨rfl, rfl⟩

/-- C6 witness: concrete instance of the general part — collection
completed at time 0, evaluation with zero bytes 201 ms later, Scenario C
config: exactly one trigger. -/
theorem gcData_onPerformFullGC_cooldown_reset_witness :
    GCData.onSafePoint cfgScenarioC
        (GCData.onPerformFullGC ⟨77, true⟩ 0) 201000000 0 0 =
      Except.ok 1 := by
  have h := gcData_onPerformFullGC_cooldown_reset.1 cfgScenarioC ⟨77, true⟩
    0 201000000 0 0 rfl (Nat.zero_le _) (by norm_num [wordSize])
    (by norm_num [cfgScenarioC])
  rw [h]
  norm_num [cfgScenarioC]

/-- C10: when a per-thread counter's snapshotted byte threshold equals the
live byte threshold and a `RecordAllocation` brings the cumulative bytes to
exactly that threshold, the call does report (the per-thread test is
greater-or-equal), yet forwarding that report to `GCData::OnSafePoint` does
not satisfy the strictly-greater byte condition, so the trigger fires on
that report iff the cooldown condition holds on its own. -/
theorem allocation_at_exact_threshold_boundary (config : GCSchedulerConfig)
    (td : ThreadData) (size : Nat) (gcd : GCData) (nowNs : Nat)
    (hsnap : td.allocatedBytesThreshold = config.allocationThresholdBytes)
    (hsum : td.allocatedBytes + size = config.allocationThresholdBytes)
    (hthr : config.allocationThresholdBytes < wordSize)
    (hbound : gcd.scheduleGCBound = true)
    (hmono : gcd.timeOfLastGcNs ≤ nowNs) (hnow : nowNs < wordSize) :
    (ThreadData.onSafePointAllocation config td size).2 =
      some (config.allocationThresholdBytes, td.safePointsCounter) ∧
    GCData.onSafePoint config gcd nowNs config.allocationThresholdBytes
        td.safePointsCounter =
      Except.ok
        (if config.cooldownThresholdNs ≤ nowNs - gcd.timeOfLastGcNs
          then 1 else 0) := by
  constructor
  · unfold ThreadData.onSafePointAllocation
    rw [hsum, Nat.mod_eq_of_lt hthr]
    rw [if_neg (by rw [hsnap]; exact lt_irrefl _)]
    rfl
  · have h := onSafePoint_bound_eq config gcd nowNs
      config.allocationThresholdBytes td.safePointsCounter hbound hmono hnow
    rw [h]
    by_cases hc : config.cooldownThresholdNs ≤ nowNs - gcd.timeOfLastGcNs
    · rw [if_pos (Or.inr hc), if_pos hc]
    · rw [if_neg ?_, if_neg hc]
      rintro (h1 | h2)
      · exact lt_irrefl _ h1
      · exact hc h2

/-- C10 witness: default config (10 MiB live and snapshotted threshold),
counter at 10 MiB − 1 receiving a 1-byte allocation at time 5 after a
collection at time 0: a report of exactly 10 MiB is produced, and the
forwarded evaluation does not trigger (cooldown 200 ms not elapsed). -/
theorem allocation_at_exact_threshold_boundary_witness :
    (ThreadData.onSafePointAllocation (GCSchedulerConfig.make false)
        ⟨10485759, 10485760, 3, 100000⟩ 1).2 =
      some ((GCSchedulerConfig.make false).allocationThresholdBytes, 3) ∧
    GCData.onSafePoint (GCSchedulerConfig.make false) ⟨0, true⟩ 5
        (GCSchedulerConfig.make false).allocationThresholdBytes 3 =
      Except.ok
        (if (GCSchedulerConfig.make false).cooldownThresholdNs ≤ 5 - 0
          then 1 else 0) :=
  allocation_at_exact_threshold_boundary (GCSchedulerConfig.make false)
    ⟨10485759, 10485760, 3, 100000⟩ 1 ⟨0, true⟩ 5
    (by norm_num [GCSchedulerConfig.make])
    (by norm_num [GCSchedulerConfig.make])
    (by norm_num [GCSchedulerConfig.make, wordSize])
    rfl (Nat.zero_le 5) (by norm_num [wordSize])

/-- A run of weight-1 regular safepoints that stays strictly below the
snapshotted threshold leaves the counter at its accumulated value and never
reports. -/
lemma runRegular_no_report (config : GCSchedulerConfig) (n : Nat) :
    ∀ td : ThreadData, td.safePointsCounterThreshold ≤ wordSize →
      td.safePointsCounter + n < td.safePointsCounterThreshold →
      runRegularSafePoints true config td (List.replicate n 1) =
        ({ td with safePointsCounter := td.safePointsCounter + n },
          List.replicate n false) := by
  induction n with
  | zero =>
    intro td _ _
    simp [runRegularSafePoints]
  | succ n ih =>
    intro td hW h
    have hc1 : td.safePointsCounter + 1 < wordSize := by omega
    have hlt : td.safePointsCounter + 1 < td.safePointsCounterThreshold := by
      omega
    have hstep : ThreadData.onSafePointRegular true config td 1 =
        ({ td with safePointsCounter := td.safePointsCounter + 1 }, none) := by
      simp [ThreadData.onSafePointRegular, Nat.mod_eq_of_lt hc1, hlt]
    rw [List.replicate_succ]
    simp only [runRegularSafePoints, hstep]
    rw [ih { td with safePointsCounter := td.safePointsCounter + 1 }
      (by simpa using hW) (by simp; omega)]
    have harith : td.safePointsCounter + 1 + n =
        td.safePointsCounter + (n + 1) := by omega
    simp [harith, List.replicate_succ]

/-- C2: a `RecordAllocation` call reports iff the cumulative allocated
bytes since the last reset reach (greater-or-equal) the snapshotted byte
threshold — this holds for every counter state, hence for every call
sequence and independently of the aggressive profile, which
`OnSafePointAllocation` never consults; and in Scenario B (default 10 MiB
byte threshold, 1 MiB increments from a fresh thread counter) exactly one
report occurs, on the 10th call. -/
theorem onSafePointAllocation_reports_iff :
    (∀ (config : GCSchedulerConfig) (td : ThreadData) (size : Nat),
        td.allocatedBytes + size < wordSize →
        ((ThreadData.onSafePointAllocation config td size).2.isSome = true ↔
          td.allocatedBytesThreshold ≤ td.allocatedBytes + size)) ∧
    (runAllocations (GCSchedulerConfig.make false)
        (ThreadData.init (GCSchedulerConfig.make false))
        (List.replicate 10 (1024 * 1024))).2 =
      [false, false, false, false, false, false, false, false, false, true] := by
  constructor
  · intro config td size h
    by_cases hlt : td.allocatedBytes + size < td.allocatedBytesThreshold
    · simp [ThreadData.onSafePointAllocation, Nat.mod_eq_of_lt h, hlt]
    · simp [ThreadData.onSafePointAllocation, Nat.mod_eq_of_lt h, hlt]
      omega
  · decide

/-- C2 witness: a fresh thread counter under the default config (10 MiB
snapshot) receiving a single 10 MiB allocation reports. -/
theorem onSafePointAllocation_reports_iff_witness :
    (ThreadData.onSafePointAllocation (GCSchedulerConfig.make false)
        (ThreadData.init (GCSchedulerConfig.make false)) 10485760).2.isSome =
      true := by
  have h := onSafePointAllocation_reports_iff.1 (GCSchedulerConfig.make false)
    (ThreadData.init (GCSchedulerConfig.make false)) 10485760
    (by norm_num [ThreadData.init, ThreadData.clearCountersAndUpdateThresholds,
      GCSchedulerConfig.make, wordSize])
  exact h.mpr (by norm_num [ThreadData.init,
    ThreadData.clearCountersAndUpdateThresholds, GCSchedulerConfig.make])

/-- C3: with aggressive counting enabled, a `RecordSafepoint` call reports
iff the cumulative weight since the last reset reaches the snapshotted
safepoint-weight threshold, and any reporting call leaves the weighted
counter at zero; and in Scenario A (weight threshold 100000, weight-1
safepoints from a fresh thread counter) the first 99999 calls produce no
report while the 100000th reports and resets the counter to 0. -/
theorem onSafePointRegular_reports_iff :
    (∀ (config : GCSchedulerConfig) (td : ThreadData) (weight : Nat),
        td.safePointsCounter + weight < wordSize →
        ((ThreadData.onSafePointRegular true config td weight).2.isSome =
            true ↔
          td.safePointsCounterThreshold ≤ td.safePointsCounter + weight)) ∧
    (∀ (config : GCSchedulerConfig) (td td2 : ThreadData) (weight : Nat)
        (rep : Nat × Nat),
        ThreadData.onSafePointRegular true config td weight =
          (td2, some rep) →
        td2.safePointsCounter = 0) ∧
    ((runRegularSafePoints true (GCSchedulerConfig.make false)
        (ThreadData.init (GCSchedulerConfig.make false))
        (List.replicate 99999 1)).2 = List.replicate 99999 false ∧
      (ThreadData.onSafePointRegular true (GCSchedulerConfig.make false)
          (runRegularSafePoints true (GCSchedulerConfig.make false)
            (ThreadData.init (GCSchedulerConfig.make false))
            (List.replicate 99999 1)).1 1).2.isSome = true ∧
      (ThreadData.onSafePointRegular true (GCSchedulerConfig.make false)
          (runRegularSafePoints true (GCSchedulerConfig.make false)
            (ThreadData.init (GCSchedulerConfig.make false))
            (List.replicate 99999 1)).1 1).1.safePointsCounter = 0) := by
  refine ⟨?_, ?_, ?_⟩
  · intro config td weight h
    by_cases hlt : td.safePointsCounter + weight < td.safePointsCounterThreshold
    · simp [ThreadData.onSafePointRegular, Nat.mod_eq_of_lt h, hlt]
    · simp [ThreadData.onSafePointRegular, Nat.mod_eq_of_lt h, hlt]
      omega
  · intro config td td2 weight rep heq
    by_cases hlt : (td.safePointsCounter + weight) % wordSize <
        td.safePointsCounterThreshold
    · simp [ThreadData.onSafePointRegular, hlt] at heq
    · simp [ThreadData.onSafePointRegular, hlt,
        ThreadData.onSafePointSlowPath] at heq
      rw [← heq.1]
      rfl
  · have hrun := runRegular_no_report (GCSchedulerConfig.make false) 99999
      (ThreadData.init (GCSchedulerConfig.make false))
      (by norm_num [ThreadData.init,
        ThreadData.clearCountersAndUpdateThresholds, GCSchedulerConfig.make,
        wordSize])
      (by norm_num [ThreadData.init,
        ThreadData.clearCountersAndUpdateThresholds, GCSchedulerConfig.make])
    rw [hrun]
    refine ⟨rfl, ?_, ?_⟩ <;> decide

/-- C3 witness: counter at 99999 with snapshot threshold 100000 receiving a
weight-1 safepoint reports. -/
theorem onSafePointRegular_reports_iff_witness :
    (ThreadData.onSafePointRegular true (GCSchedulerConfig.make false)
        ⟨0, 10485760, 99999, 100000⟩ 1).2.isSome = true := by
  have h := onSafePointRegular_reports_iff.1 (GCSchedulerConfig.make false)
    ⟨0, 10485760, 99999, 100000⟩ 1 (by norm_num [wordSize])
  exact h.mpr (by norm_num)

/-- C4: with aggressive counting disabled, `RecordSafepoint` is inert for
every weight sequence: no call reports, and the whole counter state —
including the weighted counter — is unchanged. -/
theorem onSafePointRegular_disabled_noop (config : GCSchedulerConfig)
    (td : ThreadData) (weights : List Nat) :
    runRegularSafePoints false config td weights =
      (td, weights.map fun _ => false) := by
  induction weights generalizing td with
  | nil => rfl
  | cons w rest ih =>
    simp [runRegularSafePoints, ThreadData.onSafePointRegular, ih]

/-- C5: in every counter state, `NotifyStoppedForCollection` zeroes both
running totals and refreshes both snapshot thresholds from the live config
values. -/
theorem onStoppedForGC_resets_and_refreshes (config : GCSchedulerConfig)
    (td : ThreadData) :
    ThreadData.onStoppedForGC config td =
      { allocatedBytes := 0
        safePointsCounter := 0
        allocatedBytesThreshold := config.allocationThresholdBytes
        safePointsCounterThreshold := config.threshold } := rfl

/-- C8 counterexample: in the source, `GCData::SetScheduleGC` carries no
assertion at all, so a second call — even one passing an empty callback —
is not rejected: it succeeds and overwrites the previously bound callback,
leaving the decision state unbound. A subsequent triggering `OnSafePoint`
then hits the `scheduleGC_ cannot be empty` assertion there, showing the
violation was not caught at binding time at the decision-state level. -/
theorem gcData_setScheduleGC_not_validated :
    GCData.setScheduleGC (GCData.setScheduleGC (GCData.init 0) true) false =
      { timeOfLastGcNs := 0, scheduleGCBound := false } ∧
    GCData.onSafePoint (GCSchedulerConfig.make false)
        (GCData.setScheduleGC (GCData.setScheduleGC (GCData.init 0) true)
          false) 200000000 0 0 =
      Except.error "scheduleGC_ cannot be empty" :=
  ⟨rfl, rfl⟩

/-- C8 (amended): `GCData::SetScheduleGC` performs no validation — it
unconditionally stores the given callback, overwriting any previous
binding, with no fatal check for a second call or an empty callback; the
once-only and non-emptiness contract is enforced only one level up, by
`GCScheduler::SetScheduleGC`. -/
theorem gcData_setScheduleGC_overwrites_checks_at_root :
    (∀ (gcd : GCData) (newCallbackNonEmpty : Bool),
        GCData.setScheduleGC gcd newCallbackNonEmpty =
          { timeOfLastGcNs := gcd.timeOfLastGcNs
            scheduleGCBound := newCallbackNonEmpty }) ∧
    (∀ s : GCScheduler,
        GCScheduler.setScheduleGC s false =
          Except.error "scheduleGC cannot be empty") ∧
    (∀ s : GCScheduler, s.scheduleGCBound = true →
        GCScheduler.setScheduleGC s true =
          Except.error "scheduleGC must not have been set") := by
  refine ⟨fun gcd b => rfl, fun s => rfl, fun s hs => ?_⟩
  simp [GCScheduler.setScheduleGC, hs]

/-- C8 amended-claim witness: a scheduler whose callback is already bound
rejects a second (non-empty) binding fatally at the composition-root
level. -/
theorem gcData_setScheduleGC_overwrites_checks_at_root_witness :
    GCScheduler.setScheduleGC
        { config := GCSchedulerConfig.make false
          gcData := { timeOfLastGcNs := 0, scheduleGCBound := true }
          scheduleGCBound := true } true =
      Except.error "scheduleGC must not have been set" :=
  gcData_setScheduleGC_overwrites_checks_at_root.2.2
    { config := GCSchedulerConfig.make false
      gcData := { timeOfLastGcNs := 0, scheduleGCBound := true }
      scheduleGCBound := true } rfl

/-- C9: `GCScheduler::SetScheduleGC` fatally asserts on an empty callback
and on a second call after a callback is bound; a first call with a
non-empty callback succeeds, records the binding, and forwards the
callback into the decision state (`gcData_.SetScheduleGC`). -/
theorem gcScheduler_setScheduleGC_contract (s : GCScheduler) :
    (GCScheduler.setScheduleGC s false =
        Except.error "scheduleGC cannot be empty") ∧
    (s.scheduleGCBound = true →
      GCScheduler.setScheduleGC s true =
        Except.error "scheduleGC must not have been set") ∧
    (s.scheduleGCBound = false →
      GCScheduler.setScheduleGC s true =
        Except.ok
          { config := s.config
            gcData := GCData.setScheduleGC s.gcData true
            scheduleGCBound := true }) := by
  refine ⟨rfl, fun hs => ?_, fun hs => ?_⟩
  · simp [GCScheduler.setScheduleGC, hs]
  · simp [GCScheduler.setScheduleGC, hs]

/-- C9 witness: on a freshly constructed scheduler, the first binding of a
non-empty callback succeeds and marks the decision state's callback
bound. -/
theorem gcScheduler_setScheduleGC_contract_witness :
    GCScheduler.setScheduleGC (GCScheduler.init false 0) true =
      Except.ok
        { config := (GCScheduler.init false 0).config
          gcData := GCData.setScheduleGC (GCScheduler.init false 0).gcData true
          scheduleGCBound := true } :=
  (gcScheduler_setScheduleGC_contract (GCScheduler.init false 0)).2.2 rfl

end GCSchedulerModel
